import Mathlib

/-!
Shallow embedding of `src/verify_token.py`, a diagnostic script that queries
the Solana `getAccountInfo` JSON-RPC method for a fixed table of addresses on
two networks and prints a human-readable report.

The network transport is modelled as an oracle `resp : String → String → Option Json`
mapping an (address, network) pair to the parsed JSON body of the HTTP response
(`none` means the body was not valid JSON, so `response.json()` raises).
Python exceptions are modelled by `Except PyErr`; each printed line is collected
into a list in program order.  Python-specific operator semantics (`in`,
subscripting, truthiness, equality against a string literal) are embedded by
dedicated functions so that the control flow of the script is reproduced
statement by statement.
-/

set_option autoImplicit false

/-- JSON values as produced by Python `json` parsing: `None`, `bool`, numbers
(modelled as `Int`; no claim depends on float behaviour), strings, lists and
dicts (association lists with distinct keys, as a parsed JSON object). -/
inductive Json where
  | null : Json
  | bool : Bool → Json
  | num : Int → Json
  | str : String → Json
  | arr : List Json → Json
  | obj : List (String × Json) → Json

/-- Python exceptions that the script can raise: `response.json()` failing on a
non-JSON body, a missing dict key, and a `TypeError` from applying `in` or
subscripting to an unsupported value. -/
inductive PyErr where
  | jsonDecodeError : PyErr
  | keyError : String → PyErr
  | typeError : PyErr
  deriving DecidableEq

/-- Lookup of a key in a parsed JSON object (Python dict access order:
first matching key; parsed dicts have distinct keys). -/
def dictLookup : List (String × Json) → String → Option Json
  | [], _ => none
  | (k, v) :: rest, key => if k = key then some v else dictLookup rest key

/-- Whether the first character list is an initial segment of the second. -/
def listStartsWith : List Char → List Char → Bool
  | [], _ => true
  | _ :: _, [] => false
  | a :: as, b :: bs => (a == b) && listStartsWith as bs

/-- Whether `pat` occurs as a contiguous sub-sequence of the character list. -/
def listContainsSub (pat : List Char) : List Char → Bool
  | [] => listStartsWith pat []
  | c :: cs => listStartsWith pat (c :: cs) || listContainsSub pat cs

/-- Python `pat in s` on strings: substring containment. -/
def pyStrIn (pat s : String) : Bool := listContainsSub pat.data s.data

/-- Python `==` between a JSON value and a string literal: true exactly when
the value is that string (a non-string value never equals a `str`). -/
def jsonEqStr : Json → String → Bool
  | Json.str s, t => s = t
  | _, _ => false

/-- Python `key in data` for a parsed JSON value: key membership on dicts,
substring test on strings, element equality on lists, `TypeError` otherwise. -/
def pyIn (key : String) : Json → Except PyErr Bool
  | Json.obj kvs => Except.ok (dictLookup kvs key).isSome
  | Json.str s => Except.ok (pyStrIn key s)
  | Json.arr xs => Except.ok (xs.any fun x => jsonEqStr x key)
  | _ => Except.error PyErr.typeError

/-- Python `data[key]` for a parsed JSON value: dict lookup raising `KeyError`
when absent, `TypeError` on any non-dict value (string/list indices must be
integers; other values are not subscriptable). -/
def pySubscript : Json → String → Except PyErr Json
  | Json.obj kvs, key =>
    match dictLookup kvs key with
    | some v => Except.ok v
    | none => Except.error (PyErr.keyError key)
  | _, _ => Except.error PyErr.typeError

/-- Python truthiness of a parsed JSON value. -/
def pyTruthy : Json → Bool
  | Json.null => false
  | Json.bool b => b
  | Json.num n => n != 0
  | Json.str s => s ≠ ""
  | Json.arr xs => !xs.isEmpty
  | Json.obj kvs => !kvs.isEmpty

/-- Whether a JSON value is Python `None` (`is None`). -/
def isNull : Json → Bool
  | Json.null => true
  | _ => false

/-- Display of a JSON value inside an f-string.  Only the string case is ever
relied on by a theorem (the script prints a base58 `owner` string); the
renderings of compound values are abstract placeholders. -/
def pyStr : Json → String
  | Json.null => "None"
  | Json.bool true => "True"
  | Json.bool false => "False"
  | Json.num n => toString n
  | Json.str s => s
  | Json.arr _ => "<list>"
  | Json.obj _ => "<dict>"

/-- The URL expression of `check_account` (line 10 of the source):
`f"https://api.{network}.solana.com" if network == "devnet" else
"https://api.mainnet-beta.solana.com"`.  The address argument is carried to
witness that the URL never depends on it. -/
def check_account_url (_address network : String) : String :=
  if network = "devnet" then "https://api." ++ network ++ ".solana.com"
  else "https://api.mainnet-beta.solana.com"

/-- `check_account` (lines 8–28), applied to the parsed response body:
if `"error" in data` return `(False, data["error"])`, otherwise return
`(data["result"]["value"] is not None, data["result"])`.  A body of `none`
models `response.json()` raising on a non-JSON body; all exception
propagation is explicit. -/
def check_account (body : Option Json) : Except PyErr (Bool × Json) :=
  match body with
  | none => Except.error PyErr.jsonDecodeError
  | some data =>
    match pyIn "error" data with
    | Except.error e => Except.error e
    | Except.ok true =>
      match pySubscript data "error" with
      | Except.error e => Except.error e
      | Except.ok errVal => Except.ok (false, errVal)
    | Except.ok false =>
      match pySubscript data "result" with
      | Except.error e => Except.error e
      | Except.ok result =>
        match pySubscript result "value" with
        | Except.error e => Except.error e
        | Except.ok value => Except.ok (!(isNull value), result)

/-- The SPL Token Program address literal compared against on line 60. -/
def SPL_TOKEN_PROGRAM : String := "TokenkegQfeZyiNwAJbNbGKPFXCWuBvf9Ss623VQ5DA"

/-- The existence marker of lines 48 and 52:
`'✅ EXISTS' if exists else '❌ NOT FOUND'`. -/
def existsText (b : Bool) : String := if b then "✅ EXISTS" else "❌ NOT FOUND"

/-- Line 48: `f"   DevNet: {...}"`. -/
def devnetLine (b : Bool) : String := "   DevNet: " ++ existsText b

/-- Line 52: `f"   Mainnet: {...}"`. -/
def mainnetLine (b : Bool) : String := "   Mainnet: " ++ existsText b

/-- Lines 54–63 of `main`: the owner block.  Guarded by
`exists_devnet and result_devnet["value"]`; then re-reads the value, checks
`account_data and "owner" in account_data`, prints the owner and then whether
it equals the SPL Token Program address.  Returns the lines it prints; every
possible exception precedes the first print of the block. -/
def ownerBlock (exists_devnet : Bool) (result_devnet : Json) :
    Except PyErr (List String) :=
  if exists_devnet then
    match pySubscript result_devnet "value" with
    | Except.error e => Except.error e
    | Except.ok cond =>
      if pyTruthy cond then
        match pySubscript result_devnet "value" with
        | Except.error e => Except.error e
        | Except.ok account_data =>
          if pyTruthy account_data then
            match pyIn "owner" account_data with
            | Except.error e => Except.error e
            | Except.ok hasOwner =>
              if hasOwner then
                match pySubscript account_data "owner" with
                | Except.error e => Except.error e
                | Except.ok owner =>
                  if jsonEqStr owner SPL_TOKEN_PROGRAM then
                    Except.ok ["   Owner: " ++ pyStr owner,
                               "   ✅ Owned by SPL Token Program"]
                  else
                    Except.ok ["   Owner: " ++ pyStr owner,
                               "   ⚠️  Different owner"]
              else Except.ok []
          else Except.ok []
      else Except.ok []
  else Except.ok []

/-- Line 44: `f"\n📊 {name}: {address}"`. -/
def entryHeader (name address : String) : String :=
  "\n📊 " ++ name ++ ": " ++ address

/-- The per-entry work of the loop body after the header (lines 47–63),
a function of the response oracle and the address only — the label never
reaches it.  Returns the printed lines and the exception, if any, that
escaped and aborted the process. -/
def entryBody (resp : String → String → Option Json) (address : String) :
    List String × Option PyErr :=
  match check_account (resp address "devnet") with
  | Except.error e => ([], some e)
  | Except.ok (exists_devnet, result_devnet) =>
    match check_account (resp address "mainnet-beta") with
    | Except.error e => ([devnetLine exists_devnet], some e)
    | Except.ok (exists_mainnet, _result_mainnet) =>
      match ownerBlock exists_devnet result_devnet with
      | Except.error e =>
        ([devnetLine exists_devnet, mainnetLine exists_mainnet], some e)
      | Except.ok ownerLines =>
        ([devnetLine exists_devnet, mainnetLine exists_mainnet] ++ ownerLines,
         none)

/-- One iteration of the loop of `main` (lines 43–63): print the header, then
run the body. -/
def runEntry (resp : String → String → Option Json) (name address : String) :
    List String × Option PyErr :=
  (entryHeader name address :: (entryBody resp address).1,
   (entryBody resp address).2)

/-- The loop of `main` over the remaining entries: stop at the first entry
whose body raises (the exception aborts the process), otherwise continue. -/
def runEntries (resp : String → String → Option Json) :
    List (String × String) → List String × Option PyErr
  | [] => ([], none)
  | (name, address) :: rest =>
    match runEntry resp name address with
    | (lines, some e) => (lines, some e)
    | (lines, none) =>
      ((lines ++ (runEntries resp rest).1), (runEntries resp rest).2)

/-- The `tokens` table of `main` (lines 32–38), in iteration order. -/
def tokens : List (String × String) :=
  [("USDC (current)", "4k3Dyjzvzp8eMZWUXbBCjEvwSkkk59S5iCNLY3QrkX6R"),
   ("RAY", "4k3Dyjzvzp8eMZWUXbBCjEvwSkkk59S5iCNLY3QrkX6R"),
   ("SOL", "So11111111111111111111111111111111111111112"),
   ("DevNet USDC (known)", "Gh9ZwEmdLJ8DscKNTkTqPbNwLNNBjuSzaG9Vp2KGtKJr"),
   ("DevNet USDC (alt)", "4zMMC9srt5Ri5X14GAgXhaHii3GnPAEERYPJgZJDncDU")]

/-- The banner printed by lines 40–41 of `main`. -/
def banner : List String :=
  ["🔍 VERIFICACIÓN DE TOKENS EN DEVNET", String.join (List.replicate 50 "=")]

/-- `main` (lines 30–63): banner, then the loop over `tokens`. -/
def runMain (resp : String → String → Option Json) :
    List String × Option PyErr :=
  (banner ++ (runEntries resp tokens).1, (runEntries resp tokens).2)

/-- Process exit status: 0 on normal completion, non-zero (Python exits with
status 1 on an uncaught exception) otherwise. -/
def exitCode : Option PyErr → Nat
  | none => 0
  | some _ => 1

/-- Shape predicate used by the malformed-response claims: the parsed body is
a dict carrying an `error` key. -/
def hasErrorKey : Json → Bool
  | Json.obj kvs => (dictLookup kvs "error").isSome
  | _ => false

/-- Shape predicate used by the malformed-response claims: the parsed body is
a dict whose `result` member is a dict carrying a `value` member. -/
def hasResultValue : Json → Bool
  | Json.obj kvs =>
    match dictLookup kvs "result" with
    | some (Json.obj r) => (dictLookup r "value").isSome
    | _ => false
  | _ => false

/-- A response body of the shape the script expects (§3 of the spec): either
an error object, or a result object whose `value` is `null` or a dict. -/
def goodBody : Option Json → Bool
  | none => false
  | some (Json.obj kvs) =>
    match dictLookup kvs "error" with
    | some _ => true
    | none =>
      match dictLookup kvs "result" with
      | some (Json.obj r) =>
        match dictLookup r "value" with
        | some Json.null => true
        | some (Json.obj _) => true
        | _ => false
      | _ => false
  | some _ => false

/-! ## General lemmas about the embedded operations -/

/-- The empty dict has no keys. -/
theorem dictLookup_nil (key : String) : dictLookup [] key = none := rfl

/-- A dict with a found key is nonempty. -/
theorem ne_nil_of_dictLookup_some (kvs : List (String × Json)) (key : String)
    (v : Json) (h : dictLookup kvs key = some v) : kvs.isEmpty = false := by
  cases kvs with
  | nil => simp [dictLookup] at h
  | cons p rest => rfl

/-- If the head entry of the loop succeeds, the loop output is its lines
followed by the output for the remaining entries. -/
theorem runEntries_cons_ok (resp : String → String → Option Json)
    (name address : String) (rest : List (String × String))
    (h : (runEntry resp name address).2 = none) :
    runEntries resp ((name, address) :: rest)
      = ((runEntry resp name address).1 ++ (runEntries resp rest).1,
         (runEntries resp rest).2) := by
  rcases hE : runEntry resp name address with ⟨lines, err⟩
  rw [hE] at h
  simp only at h
  subst h
  simp [runEntries, hE]

/-- If the head entry of the loop raises, the loop stops with its lines. -/
theorem runEntries_cons_fail (resp : String → String → Option Json)
    (name address : String) (rest : List (String × String)) (e : PyErr)
    (h : (runEntry resp name address).2 = some e) :
    runEntries resp ((name, address) :: rest)
      = ((runEntry resp name address).1, some e) := by
  rcases hE : runEntry resp name address with ⟨lines, err⟩
  rw [hE] at h
  simp only at h
  subst h
  simp [runEntries, hE]

/-- Splitting the loop across an initial segment of non-raising entries. -/
theorem runEntries_append_ok (resp : String → String → Option Json)
    (l1 l2 : List (String × String))
    (h : ∀ p ∈ l1, (runEntry resp p.1 p.2).2 = none) :
    runEntries resp (l1 ++ l2)
      = ((l1.bind fun p => (runEntry resp p.1 p.2).1) ++ (runEntries resp l2).1,
         (runEntries resp l2).2) := by
  induction l1 with
  | nil => simp
  | cons p l1 ih =>
    obtain ⟨name, address⟩ := p
    have h1 : (runEntry resp name address).2 = none :=
      h (name, address) (List.mem_cons_self _ _)
    have h2 : ∀ q ∈ l1, (runEntry resp q.1 q.2).2 = none :=
      fun q hq => h q (List.mem_cons_of_mem _ hq)
    rw [List.cons_append, runEntries_cons_ok resp name address _ h1, ih h2]
    simp [List.append_assoc]

/-- `check_account` never returns normally on a parsed body that has neither
an `error` key nor the `result`-with-`value` structure: some exception
(TypeError or KeyError) escapes. -/
theorem check_account_malformed (d : Json) (h1 : hasErrorKey d = false)
    (h2 : hasResultValue d = false) :
    ∃ e, check_account (some d) = Except.error e := by
  cases d with
  | null => exact ⟨PyErr.typeError, rfl⟩
  | bool b => exact ⟨PyErr.typeError, rfl⟩
  | num n => exact ⟨PyErr.typeError, rfl⟩
  | str s =>
    cases hq : pyStrIn "error" s <;>
      exact ⟨PyErr.typeError, by simp [check_account, pyIn, pySubscript, hq]⟩
  | arr xs =>
    cases hq : xs.any (fun x => jsonEqStr x "error") <;>
      exact ⟨PyErr.typeError, by simp [check_account, pyIn, pySubscript, hq]⟩
  | obj kvs =>
    have hE : dictLookup kvs "error" = none := by
      cases hE2 : dictLookup kvs "error" with
      | none => rfl
      | some e => rw [hasErrorKey, hE2] at h1; simp at h1
    cases hR : dictLookup kvs "result" with
    | none =>
      exact ⟨PyErr.keyError "result",
        by simp [check_account, pyIn, pySubscript, hE, hR]⟩
    | some res =>
      cases res with
      | obj r =>
        simp only [hasResultValue, hR] at h2
        cases hV : dictLookup r "value" with
        | none =>
          exact ⟨PyErr.keyError "value",
            by simp [check_account, pyIn, pySubscript, hE, hR, hV]⟩
        | some v => rw [hV] at h2; simp at h2
      | null =>
        exact ⟨PyErr.typeError, by simp [check_account, pyIn, pySubscript, hE, hR]⟩
      | bool b =>
        exact ⟨PyErr.typeError, by simp [check_account, pyIn, pySubscript, hE, hR]⟩
      | num n =>
        exact ⟨PyErr.typeError, by simp [check_account, pyIn, pySubscript, hE, hR]⟩
      | str s =>
        exact ⟨PyErr.typeError, by simp [check_account, pyIn, pySubscript, hE, hR]⟩
      | arr xs =>
        exact ⟨PyErr.typeError, by simp [check_account, pyIn, pySubscript, hE, hR]⟩

/-- The owner block cannot raise when the devnet `value` member is a dict. -/
theorem ownerBlock_ok_of_value_obj (r va : List (String × Json))
    (hv : dictLookup r "value" = some (Json.obj va)) :
    ∃ ls, ownerBlock true (Json.obj r) = Except.ok ls := by
  cases va with
  | nil => exact ⟨[], by simp [ownerBlock, pySubscript, hv, pyTruthy, List.isEmpty]⟩
  | cons kv rest =>
    cases hO : dictLookup (kv :: rest) "owner" with
    | none =>
      exact ⟨[], by simp [ownerBlock, pySubscript, pyIn, hv, hO, pyTruthy, List.isEmpty]⟩
    | some owner =>
      cases hq : jsonEqStr owner SPL_TOKEN_PROGRAM with
      | false =>
        exact ⟨["   Owner: " ++ pyStr owner, "   ⚠️  Different owner"],
          by simp [ownerBlock, pySubscript, pyIn, hv, hO, hq, pyTruthy, List.isEmpty]⟩
      | true =>
        exact ⟨["   Owner: " ++ pyStr owner, "   ✅ Owned by SPL Token Program"],
          by simp [ownerBlock, pySubscript, pyIn, hv, hO, hq, pyTruthy, List.isEmpty]⟩

/-- On a body of the expected shape, `check_account` returns normally and the
owner block built from its return also returns normally. -/
theorem check_account_good (b : Option Json) (h : goodBody b = true) :
    ∃ fl r, check_account b = Except.ok (fl, r)
      ∧ ∃ ls, ownerBlock fl r = Except.ok ls := by
  cases b with
  | none => simp [goodBody] at h
  | some d =>
    cases d with
    | obj kvs =>
      cases hE : dictLookup kvs "error" with
      | some e =>
        exact ⟨false, e, by simp [check_account, pyIn, pySubscript, hE],
          ⟨[], by simp [ownerBlock]⟩⟩
      | none =>
        simp only [goodBody, hE] at h
        cases hR : dictLookup kvs "result" with
        | none => rw [hR] at h; simp at h
        | some res =>
          simp only [hR] at h
          cases res with
          | obj r =>
            cases hV : dictLookup r "value" with
            | none => simp only [hV] at h; simp at h
            | some v =>
              simp only [hV] at h
              cases v with
              | null =>
                exact ⟨false, Json.obj r,
                  by simp [check_account, pyIn, pySubscript, hE, hR, hV, isNull],
                  ⟨[], by simp [ownerBlock]⟩⟩
              | obj va =>
                exact ⟨true, Json.obj r,
                  by simp [check_account, pyIn, pySubscript, hE, hR, hV, isNull],
                  ownerBlock_ok_of_value_obj r va hV⟩
              | bool b2 => simp at h
              | num n => simp at h
              | str s => simp at h
              | arr xs => simp at h
          | null => simp at h
          | bool b2 => simp at h
          | num n => simp at h
          | str s => simp at h
          | arr xs => simp at h
    | null => simp [goodBody] at h
    | bool b2 => simp [goodBody] at h
    | num n => simp [goodBody] at h
    | str s => simp [goodBody] at h
    | arr xs => simp [goodBody] at h

/-- An entry whose two responses have the expected shape never raises. -/
theorem runEntry_none_of_good (resp : String → String → Option Json)
    (name address : String)
    (h1 : goodBody (resp address "devnet") = true)
    (h2 : goodBody (resp address "mainnet-beta") = true) :
    (runEntry resp name address).2 = none := by
  obtain ⟨fl, r, hc, ls, ho⟩ := check_account_good _ h1
  obtain ⟨fl2, r2, hc2, -⟩ := check_account_good _ h2
  simp [runEntry, entryBody, hc, hc2, ho]

/-! ## Claims -/

/-- C1: for every parsed response body (a dict) without an `error` key whose
`result` member is a dict with a `value` member, `check_account` returns
normally with existence flag true exactly when `result.value` is non-null and
false exactly when it is null, and in both cases the second component of the
return is the full `result` object. -/
theorem c1_tri_state (kvs r : List (String × Json)) (v : Json)
    (hne : dictLookup kvs "error" = none)
    (hr : dictLookup kvs "result" = some (Json.obj r))
    (hv : dictLookup r "value" = some v) :
    check_account (some (Json.obj kvs)) = Except.ok (!(isNull v), Json.obj r)
    ∧ ((!(isNull v)) = true ↔ v ≠ Json.null)
    ∧ ((!(isNull v)) = false ↔ v = Json.null) := by
  refine ⟨?_, ?_, ?_⟩
  · simp [check_account, pyIn, pySubscript, hne, hr, hv]
  · cases v <;> simp [isNull]
  · cases v <;> simp [isNull]

/-- Witness for C1 at a concrete null-valued body. -/
theorem c1_tri_state_witness :
    dictLookup [("result", Json.obj [("value", Json.null)])] "error" = none
    ∧ check_account (some (Json.obj [("result", Json.obj [("value", Json.null)])]))
        = Except.ok (!(isNull Json.null), Json.obj [("value", Json.null)]) :=
  ⟨rfl, (c1_tri_state [("result", Json.obj [("value", Json.null)])]
    [("value", Json.null)] Json.null rfl rfl rfl).1⟩

/-- C2: for every parsed response body (a dict) containing an `error` key,
`check_account` returns the error payload verbatim with existence flag false,
regardless of any other fields in the body. -/
theorem c2_rpc_error_surfaced (kvs : List (String × Json)) (e : Json)
    (he : dictLookup kvs "error" = some e) :
    check_account (some (Json.obj kvs)) = Except.ok (false, e) := by
  simp [check_account, pyIn, pySubscript, he]

/-- Witness for C2 at a body that also carries a `result` field. -/
theorem c2_rpc_error_surfaced_witness :
    check_account (some (Json.obj [("error", Json.str "bad"),
        ("result", Json.obj [("value", Json.null)])]))
      = Except.ok (false, Json.str "bad") :=
  c2_rpc_error_surfaced [("error", Json.str "bad"),
    ("result", Json.obj [("value", Json.null)])] (Json.str "bad") rfl

/-- C3: at the report layer, an `RpcError` outcome (body with an `error` key)
and a `NotFound` outcome (body whose `result.value` is null) render the same
existence line, namely the NOT FOUND line. -/
theorem c3_error_notfound_conflated (b1 b2 r : List (String × Json)) (e : Json)
    (h1 : dictLookup b1 "error" = some e)
    (h2e : dictLookup b2 "error" = none)
    (h2r : dictLookup b2 "result" = some (Json.obj r))
    (h2v : dictLookup r "value" = some Json.null) :
    Except.map (fun p => devnetLine p.1) (check_account (some (Json.obj b1)))
      = Except.map (fun p => devnetLine p.1) (check_account (some (Json.obj b2)))
    ∧ Except.map (fun p => devnetLine p.1) (check_account (some (Json.obj b1)))
      = Except.ok "   DevNet: ❌ NOT FOUND" := by
  constructor <;>
    simp [check_account, pyIn, pySubscript, h1, h2e, h2r, h2v, isNull,
      devnetLine, existsText, Except.map]

/-- Witness for C3 at concrete error and null-valued bodies. -/
theorem c3_error_notfound_conflated_witness :
    Except.map (fun p => devnetLine p.1)
        (check_account (some (Json.obj [("error", Json.num 7)])))
      = Except.ok "   DevNet: ❌ NOT FOUND" :=
  (c3_error_notfound_conflated [("error", Json.num 7)]
    [("result", Json.obj [("value", Json.null)])] [("value", Json.null)]
    (Json.num 7) rfl rfl rfl rfl).2

/-- C6: the request URL is fixed by the network selector — devnet maps to the
devnet endpoint, mainnet-beta to the mainnet endpoint — and never depends on
the address. -/
theorem c6_url_fixed_by_network (a1 a2 : String) :
    check_account_url a1 "devnet" = "https://api.devnet.solana.com"
    ∧ check_account_url a1 "mainnet-beta" = "https://api.mainnet-beta.solana.com"
    ∧ ∀ n : String, check_account_url a1 n = check_account_url a2 n :=
  ⟨rfl, rfl, fun _ => rfl⟩

/-- C7: the fixture table holds the same address under the labels
USDC (current) and RAY, and the per-entry work after the header line (the
existence lines, the owner lines and any escaping exception) is a function of
the response oracle and the address alone — two entries with equal addresses
produce identical results whatever their labels. -/
theorem c7_label_irrelevant :
    tokens.get? 0 = some ("USDC (current)", "4k3Dyjzvzp8eMZWUXbBCjEvwSkkk59S5iCNLY3QrkX6R")
    ∧ tokens.get? 1 = some ("RAY", "4k3Dyjzvzp8eMZWUXbBCjEvwSkkk59S5iCNLY3QrkX6R")
    ∧ ∀ (resp : String → String → Option Json) (name1 name2 address : String),
        (runEntry resp name1 address).1.tail = (runEntry resp name2 address).1.tail
        ∧ (runEntry resp name1 address).2 = (runEntry resp name2 address).2 :=
  ⟨rfl, rfl, fun _ _ _ _ => ⟨rfl, rfl⟩⟩

/-- C4: owner reporting is driven by the DevNet result.  If the DevNet check
returned Exists and its `result.value` dict carries an `owner` field, the
driver prints the owner followed by the SPL-Token-Program verdict (the ✅ line
exactly when the owner equals the fixed address, the ⚠️ flag otherwise); if
the DevNet result is not Exists, or the value dict lacks `owner`, no owner
line is printed. -/
theorem c4_owner_report :
    (∀ (r va : List (String × Json)) (owner : Json),
       dictLookup r "value" = some (Json.obj va) →
       dictLookup va "owner" = some owner →
       ownerBlock true (Json.obj r)
         = Except.ok ["   Owner: " ++ pyStr owner,
             if jsonEqStr owner SPL_TOKEN_PROGRAM then
               "   ✅ Owned by SPL Token Program"
             else "   ⚠️  Different owner"])
    ∧ (∀ result_devnet : Json, ownerBlock false result_devnet = Except.ok [])
    ∧ (∀ (r va : List (String × Json)),
       dictLookup r "value" = some (Json.obj va) →
       dictLookup va "owner" = none →
       ownerBlock true (Json.obj r) = Except.ok []) := by
  refine ⟨?_, fun _ => rfl, ?_⟩
  · intro r va owner hv ho
    have hne : va.isEmpty = false := ne_nil_of_dictLookup_some va "owner" owner ho
    cases hq : jsonEqStr owner SPL_TOKEN_PROGRAM <;>
      simp [ownerBlock, pySubscript, pyIn, pyTruthy, hv, ho, hne, hq]
  · intro r va hv ho
    cases va with
    | nil => simp [ownerBlock, pySubscript, pyTruthy, hv, List.isEmpty]
    | cons kv rest =>
      simp [ownerBlock, pySubscript, pyIn, pyTruthy, hv, ho, List.isEmpty]

/-- Witness for C4 at a concrete SPL-owned account payload. -/
theorem c4_owner_report_witness :
    ownerBlock true (Json.obj [("value",
        Json.obj [("owner", Json.str "TokenkegQfeZyiNwAJbNbGKPFXCWuBvf9Ss623VQ5DA")])])
      = Except.ok ["   Owner: TokenkegQfeZyiNwAJbNbGKPFXCWuBvf9Ss623VQ5DA",
                   "   ✅ Owned by SPL Token Program"] := by
  have h := c4_owner_report.1
    [("value", Json.obj [("owner", Json.str "TokenkegQfeZyiNwAJbNbGKPFXCWuBvf9Ss623VQ5DA")])]
    [("owner", Json.str "TokenkegQfeZyiNwAJbNbGKPFXCWuBvf9Ss623VQ5DA")]
    (Json.str "TokenkegQfeZyiNwAJbNbGKPFXCWuBvf9Ss623VQ5DA") rfl rfl
  simpa [jsonEqStr, SPL_TOKEN_PROGRAM, pyStr] using h

/-- Response oracle refuting C5: for the SOL address the MainnetBeta response
is Exists with the SPL Token Program owner, while the DevNet response is a
successful NotFound. -/
def respC5 : String → String → Option Json := fun _ network =>
  if network = "devnet" then
    some (Json.obj [("result", Json.obj [("value", Json.null)])])
  else
    some (Json.obj [("result", Json.obj [("value",
      Json.obj [("owner", Json.str "TokenkegQfeZyiNwAJbNbGKPFXCWuBvf9Ss623VQ5DA")])])])

/-- C5 counterexample: under `respC5` the MainnetBeta check for the SOL entry
returns Exists with owner equal to the SPL Token Program address, yet the
report block for that entry does not contain the Owned-by-SPL line — the
Mainnet existence-plus-owner outcome does not suffice to produce it, because
the script keys the owner block on the DevNet result alone. -/
theorem c5_mainnet_owner_not_reported :
    check_account (respC5 "So11111111111111111111111111111111111111112" "mainnet-beta")
      = Except.ok (true, Json.obj [("value",
          Json.obj [("owner", Json.str "TokenkegQfeZyiNwAJbNbGKPFXCWuBvf9Ss623VQ5DA")])])
    ∧ (runEntry respC5 "SOL" "So11111111111111111111111111111111111111112").1
        = ["\n📊 SOL: So11111111111111111111111111111111111111112",
           "   DevNet: ❌ NOT FOUND", "   Mainnet: ✅ EXISTS"]
    ∧ (runEntry respC5 "SOL" "So11111111111111111111111111111111111111112").2 = none
    ∧ "   ✅ Owned by SPL Token Program"
        ∉ (runEntry respC5 "SOL" "So11111111111111111111111111111111111111112").1 := by
  refine ⟨rfl, rfl, rfl, ?_⟩
  rw [show (runEntry respC5 "SOL" "So11111111111111111111111111111111111111112").1
      = ["\n📊 SOL: So11111111111111111111111111111111111111112",
         "   DevNet: ❌ NOT FOUND", "   Mainnet: ✅ EXISTS"] from rfl]
  decide

/-- C5 amended: the Owned-by-SPL line for the SOL entry is produced by the
DevNet outcome: whenever the DevNet check returns Exists with the SPL Token
Program as the owner in `result.value` (and the MainnetBeta check returns
normally, so the run reaches the owner block), the report block contains the
Owned-by-SPL line. -/
theorem c5_devnet_owner_reported (resp : String → String → Option Json)
    (r va : List (String × Json)) (em : Bool) (rm : Json)
    (hdev : check_account (resp "So11111111111111111111111111111111111111112" "devnet")
              = Except.ok (true, Json.obj r))
    (hmain : check_account (resp "So11111111111111111111111111111111111111112" "mainnet-beta")
              = Except.ok (em, rm))
    (hv : dictLookup r "value" = some (Json.obj va))
    (ho : dictLookup va "owner" = some (Json.str SPL_TOKEN_PROGRAM)) :
    "   ✅ Owned by SPL Token Program"
      ∈ (runEntry resp "SOL" "So11111111111111111111111111111111111111112").1 := by
  have hne : va.isEmpty = false :=
    ne_nil_of_dictLookup_some va "owner" (Json.str SPL_TOKEN_PROGRAM) ho
  have hOB : ownerBlock true (Json.obj r)
      = Except.ok ["   Owner: " ++ pyStr (Json.str SPL_TOKEN_PROGRAM),
                   "   ✅ Owned by SPL Token Program"] := by
    simp [ownerBlock, pySubscript, pyIn, pyTruthy, hv, ho, hne, jsonEqStr]
  simp [runEntry, entryBody, hdev, hmain, hOB]

/-- Response oracle for the C5 amended witness: every response is Exists with
the SPL Token Program owner. -/
def respSplOwned : String → String → Option Json := fun _ _ =>
  some (Json.obj [("result", Json.obj [("value",
    Json.obj [("owner", Json.str "TokenkegQfeZyiNwAJbNbGKPFXCWuBvf9Ss623VQ5DA")])])])

/-- Witness for the amended C5 under `respSplOwned`. -/
theorem c5_devnet_owner_reported_witness :
    "   ✅ Owned by SPL Token Program"
      ∈ (runEntry respSplOwned "SOL" "So11111111111111111111111111111111111111112").1 :=
  c5_devnet_owner_reported respSplOwned
    [("value", Json.obj [("owner", Json.str "TokenkegQfeZyiNwAJbNbGKPFXCWuBvf9Ss623VQ5DA")])]
    [("owner", Json.str "TokenkegQfeZyiNwAJbNbGKPFXCWuBvf9Ss623VQ5DA")]
    true
    (Json.obj [("value", Json.obj [("owner",
      Json.str "TokenkegQfeZyiNwAJbNbGKPFXCWuBvf9Ss623VQ5DA")])])
    rfl rfl rfl rfl

/-- C8: a response body that is not valid JSON, or that parses to JSON with
neither an `error` key nor the `result`-with-`value` structure, makes
`check_account` raise; when the DevNet response of an entry is such a body
(and every earlier entry completed), the run stops at that entry with a
non-zero exit: its output is the blocks of the earlier entries followed by
the failing entry's header only, and no later entry is processed. -/
theorem c8_malformed_fatal (resp : String → String → Option Json)
    (name address : String) (pre rest : List (String × String))
    (hpre : ∀ p ∈ pre, (runEntry resp p.1 p.2).2 = none)
    (hbad : ∀ d, resp address "devnet" = some d →
      hasErrorKey d = false ∧ hasResultValue d = false) :
    check_account none = Except.error PyErr.jsonDecodeError
    ∧ (∀ d : Json, hasErrorKey d = false → hasResultValue d = false →
        ∃ e, check_account (some d) = Except.error e)
    ∧ ∃ e, check_account (resp address "devnet") = Except.error e
        ∧ runEntries resp (pre ++ (name, address) :: rest)
            = ((pre.bind fun p => (runEntry resp p.1 p.2).1)
                ++ [entryHeader name address], some e)
        ∧ exitCode (runEntries resp (pre ++ (name, address) :: rest)).2 ≠ 0 := by
  refine ⟨rfl, fun d h1 h2 => check_account_malformed d h1 h2, ?_⟩
  have hCA : ∃ e, check_account (resp address "devnet") = Except.error e := by
    cases hresp : resp address "devnet" with
    | none => exact ⟨PyErr.jsonDecodeError, rfl⟩
    | some d =>
      obtain ⟨h1, h2⟩ := hbad d hresp
      exact check_account_malformed d h1 h2
  obtain ⟨e, he⟩ := hCA
  have hEB : entryBody resp address = ([], some e) := by
    simp [entryBody, he]
  have hRE : runEntry resp name address = ([entryHeader name address], some e) := by
    simp [runEntry, hEB]
  have hsplit := runEntries_append_ok resp pre ((name, address) :: rest) hpre
  have hfail := runEntries_cons_fail resp name address rest e (by rw [hRE])
  refine ⟨e, he, ?_, ?_⟩
  · rw [hsplit, hfail, hRE]
  · rw [hsplit, hfail]
    simp [exitCode]

/-- Response oracle for the C8 witness: every response parses to an empty
JSON object, which has neither an `error` key nor a `result` member. -/
def respEmptyObj : String → String → Option Json := fun _ _ =>
  some (Json.obj [])

/-- Witness for C8: under `respEmptyObj` the run of a single entry aborts
with a non-zero exit after printing only the header. -/
theorem c8_malformed_fatal_witness :
    ∃ e, check_account (respEmptyObj "So11111111111111111111111111111111111111112" "devnet")
          = Except.error e
      ∧ runEntries respEmptyObj
          ([] ++ ("SOL", "So11111111111111111111111111111111111111112") :: [])
          = (([] : List (String × String)).bind
              (fun p => (runEntry respEmptyObj p.1 p.2).1)
              ++ [entryHeader "SOL" "So11111111111111111111111111111111111111112"], some e)
      ∧ exitCode (runEntries respEmptyObj
          ([] ++ ("SOL", "So11111111111111111111111111111111111111112") :: [])).2 ≠ 0 :=
  (c8_malformed_fatal respEmptyObj "SOL" "So11111111111111111111111111111111111111112"
    [] []
    (fun p hp => absurd hp (List.not_mem_nil p))
    (fun d hd => by
      injection hd with h2
      subst h2
      exact ⟨rfl, rfl⟩)).2.2

/-- C9: when every response of the run has the expected shape (an error
object, or a result object whose value is null or a dict), the driver
processes every entry of the five-entry table — the output is the banner
followed by the block of each entry in order — no exception escapes, and the
process exits 0 no matter which outcomes the checks produced. -/
theorem c9_normal_completion_exit_zero (resp : String → String → Option Json)
    (h : ∀ p ∈ tokens, goodBody (resp p.2 "devnet") = true
          ∧ goodBody (resp p.2 "mainnet-beta") = true) :
    (runMain resp).2 = none
    ∧ exitCode (runMain resp).2 = 0
    ∧ (runMain resp).1
        = banner ++ (tokens.bind fun p => (runEntry resp p.1 p.2).1)
    ∧ tokens.length = 5 := by
  have hok : ∀ p ∈ tokens, (runEntry resp p.1 p.2).2 = none :=
    fun p hp => runEntry_none_of_good resp p.1 p.2 (h p hp).1 (h p hp).2
  have hsplit := runEntries_append_ok resp tokens [] hok
  rw [List.append_nil] at hsplit
  have hnil : runEntries resp [] = ([], none) := rfl
  rw [hnil] at hsplit
  rw [List.append_nil] at hsplit
  refine ⟨?_, ?_, ?_, rfl⟩ <;> simp [runMain, hsplit, exitCode]

/-- Response oracle for the C9 witness: a NotFound-shaped body everywhere. -/
def respAllNull : String → String → Option Json := fun _ _ =>
  some (Json.obj [("result", Json.obj [("value", Json.null)])])

/-- Witness for C9 under `respAllNull`. -/
theorem c9_normal_completion_exit_zero_witness :
    (∀ p ∈ tokens, goodBody (respAllNull p.2 "devnet") = true
      ∧ goodBody (respAllNull p.2 "mainnet-beta") = true)
    ∧ exitCode (runMain respAllNull).2 = 0 := by
  have hh : ∀ p ∈ tokens, goodBody (respAllNull p.2 "devnet") = true
      ∧ goodBody (respAllNull p.2 "mainnet-beta") = true :=
    fun p _ => ⟨rfl, rfl⟩
  exact ⟨hh, (c9_normal_completion_exit_zero respAllNull hh).2.1⟩

/-- C10 counterexample: a response whose `result.value` is the truthy string
"ownership" makes `check_account` return with existence flag true, yet the
owner block raises: the substring test `"owner" in account_data` succeeds on
the string, and `account_data["owner"]` then raises a TypeError — so the
driver's owner lookup can raise for an entry whose DevNet existence flag is
true. -/
theorem c10_owner_lookup_can_raise :
    check_account (some (Json.obj [("result",
        Json.obj [("value", Json.str "ownership")])]))
      = Except.ok (true, Json.obj [("value", Json.str "ownership")])
    ∧ pyIn "owner" (Json.str "ownership") = Except.ok true
    ∧ ownerBlock true (Json.obj [("value", Json.str "ownership")])
      = Except.error PyErr.typeError
    ∧ (runEntry (fun _ _ => some (Json.obj [("result",
          Json.obj [("value", Json.str "ownership")])])) "X" "A").2
      = some PyErr.typeError :=
  ⟨rfl, rfl, rfl, rfl⟩

/-- C10 amended: whenever `check_account` returns with existence flag true,
its second component is the `result` dict, that dict has a `value` member,
the value is non-null, and the driver's re-access `result_devnet["value"]`
returns it without raising; moreover the owner block never raises provided
that value is a dict (the shape the RPC data model guarantees). -/
theorem c10_exists_payload_safe (b : Option Json) (r : Json)
    (h : check_account b = Except.ok (true, r)) :
    (∃ robj v, r = Json.obj robj ∧ dictLookup robj "value" = some v
       ∧ v ≠ Json.null ∧ pySubscript r "value" = Except.ok v)
    ∧ (∀ va : List (String × Json),
        pySubscript r "value" = Except.ok (Json.obj va) →
        ∃ ls, ownerBlock true r = Except.ok ls) := by
  cases b with
  | none => simp [check_account] at h
  | some d =>
    cases d with
    | null => simp [check_account, pyIn] at h
    | bool b2 => simp [check_account, pyIn] at h
    | num n => simp [check_account, pyIn] at h
    | str s =>
      cases hq : pyStrIn "error" s <;>
        simp [check_account, pyIn, pySubscript, hq] at h
    | arr xs =>
      cases hq : xs.any (fun x => jsonEqStr x "error") <;>
        simp [check_account, pyIn, pySubscript, hq] at h
    | obj kvs =>
      cases hE : dictLookup kvs "error" with
      | some e => simp [check_account, pyIn, pySubscript, hE] at h
      | none =>
        cases hR : dictLookup kvs "result" with
        | none => simp [check_account, pyIn, pySubscript, hE, hR] at h
        | some res =>
          cases res with
          | obj robj =>
            cases hV : dictLookup robj "value" with
            | none => simp [check_account, pyIn, pySubscript, hE, hR, hV] at h
            | some v =>
              simp only [check_account, pyIn, pySubscript, hE, hR, hV,
                Option.isSome_none] at h
              rw [Except.ok.injEq, Prod.mk.injEq] at h
              obtain ⟨hfl, hr⟩ := h
              subst hr
              constructor
              · refine ⟨robj, v, rfl, hV, ?_, by simp [pySubscript, hV]⟩
                intro hnull
                subst hnull
                simp [isNull] at hfl
              · intro va hva
                simp only [pySubscript, hV, Except.ok.injEq] at hva
                subst hva
                exact ownerBlock_ok_of_value_obj robj va hV
          | null => simp [check_account, pyIn, pySubscript, hE, hR] at h
          | bool b2 => simp [check_account, pyIn, pySubscript, hE, hR] at h
          | num n => simp [check_account, pyIn, pySubscript, hE, hR] at h
          | str s => simp [check_account, pyIn, pySubscript, hE, hR] at h
          | arr xs => simp [check_account, pyIn, pySubscript, hE, hR] at h

/-- Witness for the amended C10 at a concrete dict-valued account payload. -/
theorem c10_exists_payload_safe_witness :
    check_account (some (Json.obj [("result",
        Json.obj [("value", Json.obj [("owner", Json.str "abc")])])]))
      = Except.ok (true, Json.obj [("value", Json.obj [("owner", Json.str "abc")])])
    ∧ ∃ ls, ownerBlock true (Json.obj [("value", Json.obj [("owner", Json.str "abc")])])
        = Except.ok ls :=
  ⟨rfl,
   (c10_exists_payload_safe
     (some (Json.obj [("result", Json.obj [("value",
       Json.obj [("owner", Json.str "abc")])])]))
     (Json.obj [("value", Json.obj [("owner", Json.str "abc")])])
     rfl).2 [("owner", Json.str "abc")] rfl⟩
